import Mathlib

/-!
# Verification of the spike-echo liveness-probing service

Shallow embedding of the Go sources (`main.go` and the unnamed variants
`part_000`..`part_002`) of the `spike-echo` repository, together with
proofs of the specification claims.

The embedding models:
* the inbound `/ping` handler (`pingHandler`),
* the outbound probe classification (`pingClient.ping`),
* the prober loop (`pingClient.Start`, `part_000` variant with a
  cancellation context and an availability-zone label),
* DNS fan-out at startup (`startPinging` / the `main.go` loop),
* the fatal-error startup sequence of `main`.

Network effects are represented by explicit environment inputs (the
outcome the network hands to each request) and by traces of events the
loop emits; machine-level details (exact wall-clock time, goroutine
scheduling) are abstracted into tick indices, exactly as the spec's
contract is phrased per tick.
-/

namespace SpikeEcho

/-! ## Go `strings.Split` (used by `pingHandler` on `r.RemoteAddr`) -/

/-- Embedding of Go `strings.Split(s, sep)` for a one-character separator,
on the character-list representation.  Go's `Split` always returns at
least one element; so does this function. -/
def goSplitAux (sep : Char) : List Char → List (List Char)
  | [] => [[]]
  | c :: cs =>
    match goSplitAux sep cs with
    | [] => [[]]
    | r :: rs => if c = sep then [] :: r :: rs else (c :: r) :: rs

/-- Go `strings.Split(s, sep)` for a one-character separator. -/
def goSplit (s : String) (sep : Char) : List String :=
  (goSplitAux sep s.data).map String.mk

/-! ## IP addresses and resolution (`net.LookupIP`, `ip.To4()`) -/

/-- A resolved network address, as returned by `net.LookupIP`.  Go's
`ip.To4()` is non-nil exactly for addresses representable in 4 bytes;
we model the two cases as constructors. -/
inductive IP
  | v4 (a b c d : Nat)
  | v6 (repr : String)
deriving DecidableEq, Repr

/-- Go `ip.To4()`: the 4-byte form when the address has one, `nil`
(`none`) otherwise. -/
def IP.to4 : IP → Option (Nat × Nat × Nat × Nat)
  | .v4 a b c d => some (a, b, c, d)
  | .v6 _ => none

/-- How `fmt.Sprintf("%s", ip.To4())` renders the address: dotted quad
for a 4-byte address, the literal string `<nil>` when `To4()` is nil. -/
def to4String (ip : IP) : String :=
  match ip.to4 with
  | some (a, b, c, d) =>
      toString a ++ "." ++ toString b ++ "." ++ toString c ++ "." ++ toString d
  | none => "<nil>"

/-- Endpoint URL a prober is started with:
`fmt.Sprintf("http://%s:8000/ping", ip.To4())` (`main.go` line 50,
`part_000` line 101). -/
def remoteEndpointFor (ip : IP) : String :=
  "http://" ++ to4String ip ++ ":8000/ping"

/-- The display form of a resolved address itself (the spec's
`<resolved-address>`): dotted quad for IPv4, the textual form for
IPv6. -/
def ipDisplay : IP → String
  | .v4 a b c d =>
      toString a ++ "." ++ toString b ++ "." ++ toString c ++ "." ++ toString d
  | .v6 r => r

/-- The prober-launch loop of `main.go` (lines 49–53): one client per
resolved address, endpoint built by `remoteEndpointFor`.  Returns the
list of endpoints of the launched probers, in launch order. -/
def mainGoProbers (ips : List IP) : List String :=
  ips.map remoteEndpointFor

/-- The prober-launch loop of `startPinging` in `part_000`
(lines 97–104): addresses with `ip.To4() == nil` are skipped
(`continue`); every other address launches one client. -/
def startPingingProbers : List IP → List String
  | [] => []
  | ip :: rest =>
    match ip.to4 with
    | none => startPingingProbers rest
    | some _ => remoteEndpointFor ip :: startPingingProbers rest

/-! ## Inbound handler (`pingHandler`) -/

/-- An inbound HTTP request, with the fields `pingHandler` can see. -/
structure Request where
  method : String
  body : String
  remoteAddr : String
deriving DecidableEq, Repr

/-- What `pingHandler` does to a request: the response it writes and the
counter label it increments. -/
structure HandlerOutput where
  status : Nat
  respBody : String
  counterKey : String
deriving DecidableEq, Repr

/-- The Go constant `http.StatusOK`. -/
def httpStatusOK : Nat := 200

/-- Embedding of `pingHandler` (`main.go` lines 124–129, `part_000`
lines 164–169): write status 200 and body `"ok"`, then increment the
`payments_ping_request_count` counter labelled with
`strings.Split(r.RemoteAddr, ":")[0]`. -/
def pingHandler (r : Request) : HandlerOutput :=
  { status := httpStatusOK
    respBody := "ok"
    counterKey := (goSplit r.remoteAddr ':').headD "" }

/-! ## Outbound probe (`pingClient.ping`) -/

/-- The timeout passed to `context.WithTimeout` in `ping`:
`10*time.Second`. -/
def pingTimeoutSeconds : Nat := 10

/-- The tick interval of the prober loop: `time.After(time.Second)`. -/
def tickIntervalSeconds : Nat := 1

/-- The environment's answer to one probe attempt: request construction
failed (`http.NewRequestWithContext` returned an error, so no network
request was issued), the transport failed (`client.Do` returned an
error: connect failure or the 10s timeout), or a response with a status
code arrived. -/
inductive ProbeResult
  | reqError (msg : String)
  | doError (msg : String)
  | response (statusCode : Nat)
deriving DecidableEq, Repr

/-- The error value `ping` returns, mirroring the three `return` sites. -/
inductive PingError
  | requestError (msg : String)
  | transportError (msg : String)
  | badStatus (statusCode : Nat)
deriving DecidableEq, Repr

/-- Events a prober loop iteration emits: the one-second wait of
`time.After`, an HTTP GET issued with its timeout bound, a histogram
observation `callSummary.WithLabelValues(az, endpoint).Observe(ms)`,
and the `fmt.Printf` error log. -/
inductive LoopEvent
  | wait (seconds : Nat)
  | request (endpoint : String) (timeoutSeconds : Nat)
  | observe (zone endpoint : String) (durationMs : Int)
  | logError (endpoint : String) (err : PingError)
deriving DecidableEq, Repr

/-- Embedding of `pingClient.ping` (`main.go` lines 107–122, `part_000`
lines 147–162, and `ping` in `part_002`): build a request bounded by a
10-second context, issue it, and succeed iff the status code is exactly
`http.StatusOK`.  The first component records the network requests
actually issued (none when request construction fails, one otherwise);
the second is the Go return value (`nil` = `none`). -/
def ping (endpoint : String) (r : ProbeResult) : List LoopEvent × Option PingError :=
  match r with
  | .reqError msg => ([], some (.requestError msg))
  | .doError msg => ([.request endpoint pingTimeoutSeconds], some (.transportError msg))
  | .response code =>
      ([.request endpoint pingTimeoutSeconds],
       if code ≠ httpStatusOK then some (.badStatus code) else none)

/-! ## The prober loop (`pingClient.Start`, `part_000` variant) -/

/-- The environment of one tick of the prober loop: what the network
answers to this tick's probe, and the elapsed wall-clock duration
`time.Since(start).Milliseconds()` measured around the call. -/
structure TickInput where
  result : ProbeResult
  durationMs : Int
deriving DecidableEq, Repr

/-- One iteration of the `case <-time.After(time.Second):` branch of
`pingClient.Start` (`part_000` lines 133–143; `main.go` lines 94–103
is identical except that its histogram lacks the zone label): wait one
second, call `ping`, observe the duration in
`callSummary.WithLabelValues(az, endpoint)` unconditionally, and log
the error, if any, before continuing. -/
def startTick (az endpoint : String) (t : TickInput) : List LoopEvent :=
  let r := ping endpoint t.result
  [LoopEvent.wait tickIntervalSeconds] ++ r.1
    ++ [LoopEvent.observe az endpoint t.durationMs]
    ++ (match r.2 with
        | some err => [LoopEvent.logError endpoint err]
        | none => [])

/-- Embedding of the `pingClient.Start(ctx)` loop of `part_000`
(lines 129–145).  `cancelled i` tells whether `ctx.Done()` is closed
when iteration `i`'s `select` chooses (the `time.After` channel only
becomes ready a full second later, so a closed `ctx.Done()` wins the
select); `ticks` supplies the environment of the successive iterations.
The value is the trace of events the loop emits before returning (the
loop runs forever when never cancelled; a finite `ticks` list observes
a finite prefix of that behaviour). -/
def startLoop (az endpoint : String) (cancelled : Nat → Bool) :
    Nat → List TickInput → List LoopEvent
  | _, [] => []
  | i, t :: ts =>
      if cancelled i then []
      else startTick az endpoint t ++ startLoop az endpoint cancelled (i + 1) ts

/-- The histogram observations within a trace. -/
def observeEvents (evs : List LoopEvent) : List LoopEvent :=
  evs.filter fun ev =>
    match ev with
    | .observe _ _ _ => true
    | _ => false

/-- The HTTP GETs within a trace. -/
def requestEvents (evs : List LoopEvent) : List LoopEvent :=
  evs.filter fun ev =>
    match ev with
    | .request _ _ => true
    | _ => false

/-! ## Graceful shutdown (`main` of `part_000`) -/

/-- The `5*time.Second` deadline `main`'s shutdown goroutine puts on
`srv.Shutdown` (`part_000` lines 73–78). -/
def shutdownGraceSeconds : Nat := 5

/-- Inbound-server state visible to the shutdown claim. -/
structure ServerState where
  acceptingNew : Bool
deriving DecidableEq, Repr

/-- Model of `net/http`'s `Server.Shutdown` (external library), per its
documented behaviour: it first closes all open listeners — so no new
connection is accepted from the moment of the call, well within the
grace bound — then waits up to the context deadline for in-flight
requests. -/
def serverShutdown (_s : ServerState) (_graceSeconds : Nat) : ServerState :=
  { acceptingNew := false }

/-- The shutdown goroutine of `main` in `part_000` (lines 72–78): once
`ctx.Done()` fires it calls `srv.Shutdown` with a 5-second deadline. -/
def mainOnCancel (s : ServerState) : ServerState :=
  serverShutdown s shutdownGraceSeconds

/-! ## Startup (`main` and `startPinging` of `part_000`) -/

/-- A startup error: `log.Fatalf` is reached.  `log.Fatalf` calls
`os.Exit(1)`, so the process terminates at once with a non-zero exit
code and nothing launched earlier keeps running. -/
inductive StartupError
  | dnsFailure (host : String) (msg : String)
  | bindFailure (msg : String)
deriving DecidableEq, Repr

/-- Whether a Go call returning `(value, err)` succeeded (`err == nil`). -/
def exceptIsOk {ε α : Type} : Except ε α → Bool
  | .ok _ => true
  | .error _ => false

/-- The startup environment: the raw `REMOTE_ADDR` variable, the answer
`net.LookupIP` gives for each hostname, and whether `net.Listen`
succeeds. -/
structure StartupEnv where
  remoteAddrRaw : String
  lookup : String → Except String (List IP)
  bind : Except String Unit

/-- The configured hosts: `main` of `part_000` (lines 51–57) splits
`REMOTE_ADDR` on commas, skipping the whole block when the variable is
empty. -/
def configuredHosts (env : StartupEnv) : List String :=
  if env.remoteAddrRaw = "" then [] else goSplit env.remoteAddrRaw ','

/-- The `startPinging` calls of `main` in order: each calls
`net.LookupIP` and reaches `log.Fatalf` on a resolution error
(`part_000` lines 90–95); on success it launches `startPingingProbers`
for the resolved addresses. -/
def resolveAll (lookup : String → Except String (List IP)) :
    List String → Except StartupError (List String)
  | [] => .ok []
  | h :: rest =>
    match lookup h with
    | .error msg => .error (.dnsFailure h msg)
    | .ok ips =>
      match resolveAll lookup rest with
      | .error e => .error e
      | .ok more => .ok (startPingingProbers ips ++ more)

/-- The startup sequence of `main` in `part_000`: resolve every
configured host (fatal on the first failure), then bind the listener
(fatal on failure).  On success the value is the list of endpoints of
the launched probers; an `error` means the process exited with a
non-zero code and neither probers nor server continue running. -/
def startup (env : StartupEnv) : Except StartupError (List String) :=
  match resolveAll env.lookup (configuredHosts env) with
  | .error e => .error e
  | .ok probers =>
    match env.bind with
    | .error msg => .error (.bindFailure msg)
    | .ok _ => .ok probers

/-- The process exit code `log.Fatalf` produces on a startup error. -/
def startupExitCode (r : Except StartupError (List String)) : Nat :=
  match r with
  | .error _ => 1
  | .ok _ => 0

/-! ## Helper lemmas -/

theorem goSplitAux_ne_nil (sep : Char) (l : List Char) : goSplitAux sep l ≠ [] := by
  induction l with
  | nil => simp [goSplitAux]
  | cons c cs ih =>
    unfold goSplitAux
    cases hcs : goSplitAux sep cs with
    | nil => exact absurd hcs ih
    | cons r rs =>
      by_cases h : c = sep <;> simp [h]

theorem goSplitAux_headD (sep : Char) (l : List Char) :
    (goSplitAux sep l).headD [] = l.takeWhile (fun c => c ≠ sep) := by
  induction l with
  | nil => simp [goSplitAux]
  | cons c cs ih =>
    unfold goSplitAux
    cases hcs : goSplitAux sep cs with
    | nil => exact absurd hcs (goSplitAux_ne_nil sep cs)
    | cons r rs =>
      rw [hcs] at ih
      simp only [List.headD, decide_not] at ih
      by_cases h : c = sep <;>
        simp [h, List.takeWhile_cons, decide_not, ih]

theorem goSplit_headD (s : String) (sep : Char) :
    (goSplit s sep).headD "" = String.mk (s.data.takeWhile (fun c => c ≠ sep)) := by
  unfold goSplit
  cases hcs : goSplitAux sep s.data with
  | nil => exact absurd hcs (goSplitAux_ne_nil sep s.data)
  | cons r rs =>
    have := goSplitAux_headD sep s.data
    rw [hcs] at this
    simp at this
    simp [this]

theorem observeEvents_startTick (az e : String) (t : TickInput) :
    observeEvents (startTick az e t) = [LoopEvent.observe az e t.durationMs] := by
  obtain ⟨r, d⟩ := t
  cases r with
  | reqError _ => simp [startTick, ping, observeEvents]
  | doError _ => simp [startTick, ping, observeEvents]
  | response code =>
    by_cases h : code = httpStatusOK <;>
      simp [startTick, ping, observeEvents, h]

theorem observeEvents_startLoop (az e : String) (i : Nat) (ts : List TickInput) :
    observeEvents (startLoop az e (fun _ => false) i ts) =
      ts.map (fun t => LoopEvent.observe az e t.durationMs) := by
  induction ts generalizing i with
  | nil => simp [startLoop, observeEvents]
  | cons t ts ih =>
    simp only [startLoop, if_neg Bool.false_ne_true, observeEvents, List.filter_append]
    rw [← observeEvents, ← observeEvents, observeEvents_startTick, ih]
    simp

theorem startLoop_cancel_take (az e : String) (c : Nat → Bool) (k : Nat)
    (hc : ∀ j, k ≤ j → c j = true) (i : Nat) (ts : List TickInput) :
    startLoop az e c i ts = startLoop az e c i (ts.take (k - i)) := by
  induction ts generalizing i with
  | nil => simp
  | cons t ts ih =>
    cases hci : c i with
    | true =>
      cases h : k - i with
      | zero => simp [startLoop, hci]
      | succ m => simp [h, startLoop, hci]
    | false =>
      have hik : i < k := by
        by_contra hge
        push_neg at hge
        rw [hc i hge] at hci
        simp at hci
      have hsub : k - i = (k - (i + 1)) + 1 := by omega
      rw [hsub]
      simp only [List.take_succ_cons, startLoop, hci, if_neg Bool.false_ne_true]
      rw [ih (i + 1)]

theorem resolveAll_isOk (lookup : String → Except String (List IP))
    (hosts : List String) :
    exceptIsOk (resolveAll lookup hosts) = true ↔
      ∀ h ∈ hosts, exceptIsOk (lookup h) = true := by
  induction hosts with
  | nil => simp [resolveAll, exceptIsOk]
  | cons h rest ih =>
    cases hl : lookup h with
    | error msg => simp [resolveAll, hl, exceptIsOk]
    | ok ips =>
      cases hr : resolveAll lookup rest with
      | error e =>
        rw [hr] at ih
        simp [resolveAll, hl, hr, exceptIsOk] at ih ⊢
        obtain ⟨w, hw, hw2⟩ := ih
        exact ⟨w, by simp [hw], hw2⟩
      | ok more =>
        rw [hr] at ih
        simp [resolveAll, hl, hr, exceptIsOk] at ih ⊢
        intro host hmem
        exact ih host hmem

/-- The error-log events within a trace. -/
def logEvents (evs : List LoopEvent) : List LoopEvent :=
  evs.filter fun ev =>
    match ev with
    | .logError _ _ => true
    | _ => false

theorem logEvents_startTick_success (az e : String) (t : TickInput)
    (ht : t.result = ProbeResult.response httpStatusOK) :
    logEvents (startTick az e t) = [] := by
  obtain ⟨r, d⟩ := t
  simp only at ht
  subst ht
  simp [startTick, ping, logEvents]

theorem logEvents_startLoop_success (az e : String) (i : Nat)
    (ts : List TickInput)
    (hok : ∀ t ∈ ts, t.result = ProbeResult.response httpStatusOK) :
    logEvents (startLoop az e (fun _ => false) i ts) = [] := by
  induction ts generalizing i with
  | nil => simp [startLoop, logEvents]
  | cons t ts ih =>
    simp only [startLoop, if_neg Bool.false_ne_true, logEvents, List.filter_append]
    rw [← logEvents, ← logEvents, logEvents_startTick_success az e t (hok t (by simp)),
      ih (i + 1) (fun t' ht' => hok t' (List.mem_cons_of_mem _ ht'))]
    rfl

/-! ## Claims -/

/-- C1: for every inbound request to `/ping`, `pingHandler` responds
with HTTP status 200 and body `"ok"`, regardless of the request's
method, body, or source address; the handler is a pure per-request
function of the embedding, so the response is also independent of
request count and concurrency. -/
theorem C1_ping_handler_always_200_ok (r : Request) :
    (pingHandler r).status = 200 ∧ (pingHandler r).respBody = "ok" :=
  ⟨rfl, rfl⟩

/-- C2: a probe attempt returns success (`nil` error) if and only if
the HTTP response status code is exactly 200; a request-construction
error, a transport failure (connect failure or timeout), and any other
status code are all classified as failures. -/
theorem C2_ping_success_iff_status_200 (e : String) (r : ProbeResult) :
    (ping e r).2 = none ↔ r = ProbeResult.response httpStatusOK := by
  cases r with
  | reqError _ => simp [ping]
  | doError _ => simp [ping]
  | response code =>
    by_cases h : code = httpStatusOK <;> simp [ping, h]

/-- C3: an outbound probe error on a tick is non-fatal: when the
context is not cancelled, the loop processes the erroring tick and then
continues with the remaining ticks exactly as it would after a success
(nothing propagates out of the loop); the failure is reflected only as
the single histogram observation, and the error is logged. -/
theorem C3_probe_error_nonfatal (az e : String) (c : Nat → Bool) (i : Nat)
    (t : TickInput) (ts : List TickInput) (err : PingError)
    (herr : (ping e t.result).2 = some err) (hci : c i = false) :
    startLoop az e c i (t :: ts) =
      startTick az e t ++ startLoop az e c (i + 1) ts ∧
    observeEvents (startTick az e t) = [LoopEvent.observe az e t.durationMs] ∧
    LoopEvent.logError e err ∈ startTick az e t := by
  refine ⟨by simp [startLoop, hci], observeEvents_startTick az e t, ?_⟩
  simp [startTick, herr]

/-- C3 witness: a concrete erroring tick (status 500) on an uncancelled
loop. -/
theorem C3_probe_error_nonfatal_witness :
    startLoop "zone-a" "http://10.0.0.1:8000/ping" (fun _ => false) 0
        [⟨ProbeResult.response 500, 12⟩] =
      startTick "zone-a" "http://10.0.0.1:8000/ping" ⟨ProbeResult.response 500, 12⟩ ++
        startLoop "zone-a" "http://10.0.0.1:8000/ping" (fun _ => false) 1 [] ∧
    observeEvents (startTick "zone-a" "http://10.0.0.1:8000/ping"
        ⟨ProbeResult.response 500, 12⟩) =
      [LoopEvent.observe "zone-a" "http://10.0.0.1:8000/ping" 12] ∧
    LoopEvent.logError "http://10.0.0.1:8000/ping" (PingError.badStatus 500) ∈
      startTick "zone-a" "http://10.0.0.1:8000/ping" ⟨ProbeResult.response 500, 12⟩ :=
  C3_probe_error_nonfatal "zone-a" "http://10.0.0.1:8000/ping" (fun _ => false) 0
    ⟨ProbeResult.response 500, 12⟩ [] (PingError.badStatus 500) (by decide) rfl

/-- C4: once the cancellation signal is raised (the cancellation
predicate is monotone and holds from tick `k` on), the prober loop's
trace is exactly the trace of the first `k` ticks — the loop observes
the closed context at its next `select` and exits, issuing no further
requests — and `main`'s shutdown goroutine reacts to the same signal by
shutting the inbound server down with its configured 5-second grace
period, after which no new connection is accepted. -/
theorem C4_cancellation_stops_probers_and_server (az e : String)
    (c : Nat → Bool) (k : Nat) (ticks : List TickInput)
    (hmono : ∀ i j, i ≤ j → c i = true → c j = true) (hk : c k = true) :
    startLoop az e c 0 ticks = startLoop az e c 0 (ticks.take k) ∧
    shutdownGraceSeconds = 5 ∧
    ∀ s : ServerState, (mainOnCancel s).acceptingNew = false := by
  refine ⟨?_, rfl, fun s => rfl⟩
  have hc : ∀ j, k ≤ j → c j = true := fun j hj => hmono k j hj hk
  simpa using startLoop_cancel_take az e c k hc 0 ticks

/-- C4 witness: cancellation visible from tick 1 on cuts a two-tick
schedule down to its first tick. -/
theorem C4_cancellation_witness :
    startLoop "zone-a" "http://10.0.0.1:8000/ping" (fun i => decide (1 ≤ i)) 0
        [⟨ProbeResult.response 200, 1⟩, ⟨ProbeResult.response 200, 2⟩] =
      startLoop "zone-a" "http://10.0.0.1:8000/ping" (fun i => decide (1 ≤ i)) 0
        ([⟨ProbeResult.response 200, 1⟩, ⟨ProbeResult.response 200, 2⟩].take 1) ∧
    shutdownGraceSeconds = 5 ∧
    ∀ s : ServerState, (mainOnCancel s).acceptingNew = false :=
  C4_cancellation_stops_probers_and_server "zone-a" "http://10.0.0.1:8000/ping"
    (fun i => decide (1 ≤ i)) 1
    [⟨ProbeResult.response 200, 1⟩, ⟨ProbeResult.response 200, 2⟩]
    (fun i j hij hi => by
      simp only [decide_eq_true_eq] at hi ⊢
      omega)
    (by decide)

/-- C5 counterexample: resolving to the one-address list
`[2001:db8::1]` (an IPv6 address) does not launch one prober per
resolved address in the `startPinging` variant (the address is skipped,
zero probers start), and in the `main.go` variant the launched prober's
URL is `http://<nil>:8000/ping`, not the URL built from the resolved
address. -/
theorem C5_counterexample_ipv6 :
    ¬ ((startPingingProbers [IP.v6 "2001:db8::1"]).length =
        ([IP.v6 "2001:db8::1"] : List IP).length) ∧
    mainGoProbers [IP.v6 "2001:db8::1"] ≠
      ["http://" ++ ipDisplay (IP.v6 "2001:db8::1") ++ ":8000/ping"] := by
  constructor
  · decide
  · decide

/-- C5 (amended): startup launches exactly one prober per resolved
address that has a 4-byte (IPv4) form — addresses without one are
skipped — and each launched prober targets the URL built from its own
resolved address. -/
theorem C5_probers_per_ipv4_address (ips : List IP) :
    startPingingProbers ips =
      (ips.filter fun ip => ip.to4.isSome).map remoteEndpointFor ∧
    ∀ a b c d : Nat, remoteEndpointFor (IP.v4 a b c d) =
      "http://" ++ ipDisplay (IP.v4 a b c d) ++ ":8000/ping" := by
  constructor
  · induction ips with
    | nil => rfl
    | cons ip rest ih =>
      cases ip with
      | v4 a b c d => simp [startPingingProbers, IP.to4, List.filter_cons, ih]
      | v6 s => simp [startPingingProbers, IP.to4, List.filter_cons, ih]
  · intro a b c d
    rfl

/-- C6: when the remote target answers 200 on every tick, an
uncancelled run of the prober loop puts exactly one observation per
tick into the histogram, each labelled with this prober's zone and
endpoint, and logs no errors. -/
theorem C6_one_observation_per_successful_tick (az e : String)
    (ts : List TickInput)
    (hok : ∀ t ∈ ts, t.result = ProbeResult.response httpStatusOK) :
    observeEvents (startLoop az e (fun _ => false) 0 ts) =
      ts.map (fun t => LoopEvent.observe az e t.durationMs) ∧
    logEvents (startLoop az e (fun _ => false) 0 ts) = [] :=
  ⟨observeEvents_startLoop az e 0 ts, logEvents_startLoop_success az e 0 ts hok⟩

/-- C6 witness: a concrete two-tick all-success run. -/
theorem C6_one_observation_witness :
    observeEvents (startLoop "zone-a" "http://10.0.0.1:8000/ping" (fun _ => false) 0
        [⟨ProbeResult.response 200, 3⟩, ⟨ProbeResult.response 200, 4⟩]) =
      [LoopEvent.observe "zone-a" "http://10.0.0.1:8000/ping" 3,
       LoopEvent.observe "zone-a" "http://10.0.0.1:8000/ping" 4] ∧
    logEvents (startLoop "zone-a" "http://10.0.0.1:8000/ping" (fun _ => false) 0
        [⟨ProbeResult.response 200, 3⟩, ⟨ProbeResult.response 200, 4⟩]) = [] :=
  C6_one_observation_per_successful_tick "zone-a" "http://10.0.0.1:8000/ping"
    [⟨ProbeResult.response 200, 3⟩, ⟨ProbeResult.response 200, 4⟩]
    (by intro t ht; simp at ht; rcases ht with h | h <;> simp [h, httpStatusOK])

/-- C7: if at startup DNS resolution fails for some configured host, or
the listen socket cannot be bound, the startup sequence ends in a fatal
error with exit code 1; the `Except.error` result carries no running
probers or server. -/
theorem C7_startup_failures_fatal (env : StartupEnv)
    (hfail : (∃ host ∈ configuredHosts env, exceptIsOk (env.lookup host) = false) ∨
      exceptIsOk env.bind = false) :
    ∃ e : StartupError, startup env = Except.error e ∧
      startupExitCode (startup env) = 1 := by
  cases hres : resolveAll env.lookup (configuredHosts env) with
  | error e =>
    exact ⟨e, by simp [startup, hres], by simp [startup, hres, startupExitCode]⟩
  | ok probers =>
    have hall : ∀ h ∈ configuredHosts env, exceptIsOk (env.lookup h) = true :=
      (resolveAll_isOk env.lookup (configuredHosts env)).mp
        (by simp [hres, exceptIsOk])
    rcases hfail with ⟨host, hmem, hko⟩ | hbind
    · rw [hall host hmem] at hko
      simp at hko
    · cases hb : env.bind with
      | error msg =>
        exact ⟨.bindFailure msg, by simp [startup, hres, hb],
          by simp [startup, hres, hb, startupExitCode]⟩
      | ok u =>
        rw [hb] at hbind
        simp [exceptIsOk] at hbind

/-- A startup environment in which DNS resolution of the single
configured host fails. -/
def badDnsEnv : StartupEnv :=
  { remoteAddrRaw := "bad.host"
    lookup := fun _ => Except.error "no such host"
    bind := Except.ok () }

/-- C7 witness: with an unresolvable configured host, startup is a
fatal error with exit code 1. -/
theorem C7_startup_failures_fatal_witness :
    ∃ e : StartupError, startup badDnsEnv = Except.error e ∧
      startupExitCode (startup badDnsEnv) = 1 :=
  C7_startup_failures_fatal badDnsEnv
    (Or.inl ⟨"bad.host", by decide, rfl⟩)

/-- C8: the prober loop's tick interval is the fixed one second and the
request deadline is 10 seconds; on any tick whose request construction
succeeds (always the case for the well-formed endpoint URLs startup
builds), the tick issues exactly one HTTP GET, bounded by that timeout,
with no retry inside the tick, and the tick begins with the one-second
wait. -/
theorem C8_one_get_per_tick (az e : String) (t : TickInput)
    (hreq : ∀ msg, t.result ≠ ProbeResult.reqError msg) :
    tickIntervalSeconds = 1 ∧ pingTimeoutSeconds = 10 ∧
    requestEvents (startTick az e t) = [LoopEvent.request e pingTimeoutSeconds] ∧
    (startTick az e t).head? = some (LoopEvent.wait tickIntervalSeconds) := by
  refine ⟨rfl, rfl, ?_, ?_⟩
  · obtain ⟨r, d⟩ := t
    cases r with
    | reqError msg => exact absurd rfl (hreq msg)
    | doError _ => simp [startTick, ping, requestEvents]
    | response code =>
      by_cases h : code = httpStatusOK <;>
        simp [startTick, ping, requestEvents, h]
  · obtain ⟨r, d⟩ := t
    cases r <;> simp [startTick]

/-- C8 witness: a concrete tick whose transport fails (connection
refused) still issues exactly one GET with the 10-second bound. -/
theorem C8_one_get_per_tick_witness :
    tickIntervalSeconds = 1 ∧ pingTimeoutSeconds = 10 ∧
    requestEvents (startTick "zone-a" "http://10.0.0.1:8000/ping"
        ⟨ProbeResult.doError "connection refused", 10000⟩) =
      [LoopEvent.request "http://10.0.0.1:8000/ping" pingTimeoutSeconds] ∧
    (startTick "zone-a" "http://10.0.0.1:8000/ping"
        ⟨ProbeResult.doError "connection refused", 10000⟩).head? =
      some (LoopEvent.wait tickIntervalSeconds) :=
  C8_one_get_per_tick "zone-a" "http://10.0.0.1:8000/ping"
    ⟨ProbeResult.doError "connection refused", 10000⟩
    (fun msg h => ProbeResult.noConfusion h)

/-- C9: on every tick — success or failure alike — the histogram
receives exactly one observation, always as
`observe zone endpoint durationMs` with no outcome information; a
failing tick and a succeeding tick of equal duration produce identical
histogram observations. -/
theorem C9_histogram_blind_to_outcome (az e : String) (ts : List TickInput)
    (t t' : TickInput) (hdur : t.durationMs = t'.durationMs) :
    observeEvents (startLoop az e (fun _ => false) 0 ts) =
      ts.map (fun u => LoopEvent.observe az e u.durationMs) ∧
    observeEvents (startTick az e t) = observeEvents (startTick az e t') := by
  refine ⟨observeEvents_startLoop az e 0 ts, ?_⟩
  rw [observeEvents_startTick, observeEvents_startTick, hdur]

/-- C9 witness: a timeout failure and a 200 success of equal duration
are indistinguishable in the histogram, and a mixed run observes once
per tick. -/
theorem C9_histogram_blind_witness :
    observeEvents (startLoop "zone-a" "http://10.0.0.1:8000/ping" (fun _ => false) 0
        [⟨ProbeResult.response 200, 7⟩, ⟨ProbeResult.doError "timeout", 10000⟩]) =
      [LoopEvent.observe "zone-a" "http://10.0.0.1:8000/ping" 7,
       LoopEvent.observe "zone-a" "http://10.0.0.1:8000/ping" 10000] ∧
    observeEvents (startTick "zone-a" "http://10.0.0.1:8000/ping"
        ⟨ProbeResult.doError "timeout", 7⟩) =
      observeEvents (startTick "zone-a" "http://10.0.0.1:8000/ping"
        ⟨ProbeResult.response 200, 7⟩) :=
  C9_histogram_blind_to_outcome "zone-a" "http://10.0.0.1:8000/ping"
    [⟨ProbeResult.response 200, 7⟩, ⟨ProbeResult.doError "timeout", 10000⟩]
    ⟨ProbeResult.doError "timeout", 7⟩ ⟨ProbeResult.response 200, 7⟩ rfl

/-- C10: the per-source-IP counter key is the substring of
`RemoteAddr` before its first colon; for an IPv6 address-port pair such
as `[2001:db8::1]:8080` the label is the fragment `[2001`, which is not
the client's IP address `2001:db8::1`. -/
theorem C10_counter_key_truncates_ipv6 (r : Request) :
    (pingHandler r).counterKey =
      String.mk (r.remoteAddr.data.takeWhile (fun c => c ≠ ':')) ∧
    (pingHandler { method := "GET", body := "",
                   remoteAddr := "[2001:db8::1]:8080" }).counterKey = "[2001" ∧
    "[2001" ≠ "2001:db8::1" := by
  refine ⟨goSplit_headD r.remoteAddr ':', by decide, by decide⟩

end SpikeEcho
